import Mathlib

/-!
# OpenGLAnimatedScene: lights, cameras and per-frame animation

A shallow embedding of `light.h`, `camera.h` and the animation functions of
`main.cpp`.

Conventions of the embedding:

* `float` and `double` values are elements of an ordered field `F`; the
  theorems are stated over the real numbers, so they describe the program up
  to floating-point rounding.
* The scalar functions taken from the C maths library and from GLM (`cos`,
  `sin`, `sqrt`, the constant behind `glm::radians`) are collected in a
  `MathLib F` record that every definition using them receives; `realMath`
  interprets them as the real functions.
* `glfwGetTime()` is the parameter `time`: every read of the clock made while
  one function runs returns that value.
* `std::vector<T>` is `List T`; `v[i]` on an index out of range is undefined
  behaviour in C++ and is kept total here (`vecGet`, `vecModify`), the theorems
  assume the slots they touch exist.
-/

namespace GK1

/-! ## Scalars and the maths library -/

/-- The scalar library functions used by the program: `cos`, `sin` (C maths
library / `glm::cos`), `sqrt` (behind `glm::inversesqrt`) and the constant pi
(behind `glm::radians`). -/
structure MathLib (F : Type) where
  cos : F → F
  sin : F → F
  sqrt : F → F
  pi : F

/-- The library functions read as the real functions they approximate. -/
noncomputable def realMath : MathLib ℝ where
  cos := Real.cos
  sin := Real.sin
  sqrt := Real.sqrt
  pi := Real.pi

section Defs

variable {F : Type} [LinearOrderedField F]

/-- The function `glm::radians`: degrees to radians, `degrees * pi / 180`
(GLM multiplies by the constant `0.01745329251994329576923690768489`, the
decimal expansion of pi / 180). -/
def radians (M : MathLib F) (degrees : F) : F :=
  degrees * (M.pi / 180)

/-- The function `glm::inversesqrt`: `1 / sqrt x`. -/
def inversesqrt (M : MathLib F) (x : F) : F :=
  1 / M.sqrt x

/-! ## Vectors and matrices (GLM) -/

/-- The type `glm::vec3`. -/
structure Vec3 (F : Type) where
  x : F
  y : F
  z : F
deriving DecidableEq, Repr

/-- The type `glm::vec4`. -/
structure Vec4 (F : Type) where
  x : F
  y : F
  z : F
  w : F
deriving DecidableEq, Repr

/-- The type `glm::mat4`, column-major: `c0 .. c3` are `m[0] .. m[3]`. -/
structure Mat4 (F : Type) where
  c0 : Vec4 F
  c1 : Vec4 F
  c2 : Vec4 F
  c3 : Vec4 F
deriving DecidableEq, Repr

namespace Vec3

/-- The constructor `glm::vec3(s)`: all three components equal to `s`. -/
def splat (s : F) : Vec3 F := ⟨s, s, s⟩

instance : Add (Vec3 F) := ⟨fun a b => ⟨a.x + b.x, a.y + b.y, a.z + b.z⟩⟩
instance : Sub (Vec3 F) := ⟨fun a b => ⟨a.x - b.x, a.y - b.y, a.z - b.z⟩⟩
instance : Neg (Vec3 F) := ⟨fun a => ⟨-a.x, -a.y, -a.z⟩⟩

/-- The product `v * s` of a vector and a scalar. -/
def scale (v : Vec3 F) (s : F) : Vec3 F := ⟨v.x * s, v.y * s, v.z * s⟩

/-- The function `glm::dot`. -/
def dot (a b : Vec3 F) : F := a.x * b.x + a.y * b.y + a.z * b.z

/-- The function `glm::cross`. -/
def cross (a b : Vec3 F) : Vec3 F :=
  ⟨a.y * b.z - b.y * a.z, a.z * b.x - b.z * a.x, a.x * b.y - b.x * a.y⟩

/-- The function `glm::normalize`: `v * inversesqrt(dot(v, v))`. -/
def normalize (M : MathLib F) (v : Vec3 F) : Vec3 F :=
  v.scale (inversesqrt M (dot v v))

end Vec3

namespace Vec4

instance : Add (Vec4 F) := ⟨fun a b => ⟨a.x + b.x, a.y + b.y, a.z + b.z, a.w + b.w⟩⟩

/-- The product `v * s` of a vector and a scalar. -/
def scale (v : Vec4 F) (s : F) : Vec4 F := ⟨v.x * s, v.y * s, v.z * s, v.w * s⟩

end Vec4

namespace Mat4

/-- The constructor `glm::mat4(1.0f)`: the identity matrix. -/
def identity : Mat4 F :=
  ⟨⟨1, 0, 0, 0⟩, ⟨0, 1, 0, 0⟩, ⟨0, 0, 1, 0⟩, ⟨0, 0, 0, 1⟩⟩

/-- The product `m * v` of a matrix and a column vector (GLM `operator*`):
the image of the homogeneous point `v` under `m`. -/
def mulVec (m : Mat4 F) (v : Vec4 F) : Vec4 F :=
  (m.c0.scale v.x + m.c1.scale v.y) + (m.c2.scale v.z + m.c3.scale v.w)

end Mat4

/-- The function `glm::translate(m, v)`. -/
def translate (m : Mat4 F) (v : Vec3 F) : Mat4 F :=
  { m with c3 := m.c0.scale v.x + m.c1.scale v.y + m.c2.scale v.z + m.c3 }

/-- The function `glm::scale(m, v)`. -/
def scale (m : Mat4 F) (v : Vec3 F) : Mat4 F :=
  ⟨m.c0.scale v.x, m.c1.scale v.y, m.c2.scale v.z, m.c3⟩

/-- The function `glm::rotate(m, angle, v)`: rotation by `angle` about the axis `v`. -/
def rotate (M : MathLib F) (m : Mat4 F) (angle : F) (v : Vec3 F) : Mat4 F :=
  let a := angle
  let c := M.cos a
  let s := M.sin a
  let axis := Vec3.normalize M v
  let temp : Vec3 F := ⟨(1 - c) * axis.x, (1 - c) * axis.y, (1 - c) * axis.z⟩
  let r00 := c + temp.x * axis.x
  let r01 := temp.x * axis.y + s * axis.z
  let r02 := temp.x * axis.z - s * axis.y
  let r10 := temp.y * axis.x - s * axis.z
  let r11 := c + temp.y * axis.y
  let r12 := temp.y * axis.z + s * axis.x
  let r20 := temp.z * axis.x + s * axis.y
  let r21 := temp.z * axis.y - s * axis.x
  let r22 := c + temp.z * axis.z
  ⟨m.c0.scale r00 + m.c1.scale r01 + m.c2.scale r02,
   m.c0.scale r10 + m.c1.scale r11 + m.c2.scale r12,
   m.c0.scale r20 + m.c1.scale r21 + m.c2.scale r22,
   m.c3⟩

/-- The function `glm::lookAt(eye, center, up)`, right-handed (the GLM default). -/
def lookAt (M : MathLib F) (eye center up : Vec3 F) : Mat4 F :=
  let f := Vec3.normalize M (center - eye)
  let s := Vec3.normalize M (Vec3.cross f up)
  let u := Vec3.cross s f
  ⟨⟨s.x, u.x, -f.x, 0⟩,
   ⟨s.y, u.y, -f.y, 0⟩,
   ⟨s.z, u.z, -f.z, 0⟩,
   ⟨-Vec3.dot s eye, -Vec3.dot u eye, Vec3.dot f eye, 1⟩⟩

/-! ## `std::vector` access -/

/-- The read `v[i]`; an index out of range reads the default value. -/
def vecGet {α : Type} [Inhabited α] (v : List α) (i : Nat) : α :=
  v.getD i default

/-- The in-place update `v[i] = f (v[i])`; an index out of range changes nothing. -/
def vecModify {α : Type} (v : List α) (i : Nat) (f : α → α) : List α :=
  match v[i]? with
  | some a => v.set i (f a)
  | none => v

/-! ## Shader parameters -/

/-- A value bound to a named shader parameter. -/
inductive Uniform (F : Type) where
  | int (v : Int)
  | float (v : F)
  | bool (v : Bool)
  | vec3 (v : Vec3 F)
  | mat4 (v : Mat4 F)
deriving DecidableEq, Repr

/-- Modelled from the spec: the class `Shader` of `shader.h`, which is not among
the sources. The spec describes it as a backend that "accepts named-parameter
bindings of types {int, float, bool, 3-vector, 4x4 matrix}"; it is the list of
bindings made so far, newest first. -/
structure Shader (F : Type) where
  bindings : List (String × Uniform F) := []

namespace Shader

/-- The value currently bound to the parameter `name`: the latest binding. -/
def lookup (sh : Shader F) (name : String) : Option (Uniform F) :=
  sh.bindings.lookup name

/-- Modelled from the spec: `Shader::setInt`, binds an integer to `name`. -/
def setInt (sh : Shader F) (name : String) (value : Int) : Shader F :=
  ⟨(name, Uniform.int value) :: sh.bindings⟩

/-- Modelled from the spec: `Shader::setFloat`, binds a float to `name`. -/
def setFloat (sh : Shader F) (name : String) (value : F) : Shader F :=
  ⟨(name, Uniform.float value) :: sh.bindings⟩

/-- Modelled from the spec: `Shader::setBool`, binds a boolean to `name`. -/
def setBool (sh : Shader F) (name : String) (value : Bool) : Shader F :=
  ⟨(name, Uniform.bool value) :: sh.bindings⟩

/-- Modelled from the spec: `Shader::setVec3`, binds a 3-vector to `name`. -/
def setVec3 (sh : Shader F) (name : String) (value : Vec3 F) : Shader F :=
  ⟨(name, Uniform.vec3 value) :: sh.bindings⟩

/-- Modelled from the spec: `Shader::setMat4`, binds a 4x4 matrix to `name`. -/
def setMat4 (sh : Shader F) (name : String) (value : Mat4 F) : Shader F :=
  ⟨(name, Uniform.mat4 value) :: sh.bindings⟩

end Shader

/-! ## `light.h` -/

/-- The macro `DIRECTIONAL_LIGHT_TYPE`. -/
def DIRECTIONAL_LIGHT_TYPE : Int := 0
/-- The macro `POINT_LIGHT_TYPE`. -/
def POINT_LIGHT_TYPE : Int := 1
/-- The macro `SPOTLIGHT_TYPE`. -/
def SPOTLIGHT_TYPE : Int := 2

/-- The struct `Light`: one record for all light kinds, the kind is the field
`type`; fields a kind does not use keep whatever they held. `InnerAngle` and
`OuterAngle` hold the cosines of the cone angles. -/
structure Light (F : Type) where
  type : Int
  InnerAngle : F
  OuterAngle : F
  Color : Vec3 F
  Direction : Vec3 F
  Position : Vec3 F
  Attentuation : F

/-- The value-initialised `Light()`: every field zero. -/
instance : Inhabited (Light F) :=
  ⟨⟨0, 0, 0, ⟨0, 0, 0⟩, ⟨0, 0, 0⟩, ⟨0, 0, 0⟩, 0⟩⟩

namespace Light

/-- The method `Light::setInnerAngle`. -/
def setInnerAngle (M : MathLib F) (self : Light F) (angle : F) : Light F :=
  { self with InnerAngle := M.cos (radians M angle) }

/-- The method `Light::setOuterAngle`. -/
def setOuterAngle (M : MathLib F) (self : Light F) (angle : F) : Light F :=
  { self with OuterAngle := M.cos (radians M angle) }

/-- The method `Light::makeDirectional`. -/
def makeDirectional (self : Light F) (direction : Vec3 F := ⟨0, 1, 0⟩)
    (color : Vec3 F := ⟨1, 1, 1⟩) : Light F :=
  { self with type := DIRECTIONAL_LIGHT_TYPE, Color := color, Direction := direction }

/-- The method `Light::makePoint`. -/
def makePoint (self : Light F) (position : Vec3 F) (color : Vec3 F := ⟨1, 1, 1⟩)
    (attentuation : F := 0.3) : Light F :=
  { self with type := POINT_LIGHT_TYPE, Color := color, Position := position,
              Attentuation := attentuation }

/-- The method `Light::makeSpotlight`. -/
def makeSpotlight (M : MathLib F) (self : Light F) (position direction : Vec3 F)
    (innerAngle : F := 13) (outerAngle : F := 16) (color : Vec3 F := ⟨1, 1, 1⟩)
    (attentuation : F := 0.2) : Light F :=
  let l : Light F :=
    { self with type := SPOTLIGHT_TYPE, Color := color, Position := position,
                Attentuation := attentuation, Direction := direction }
  let l := setInnerAngle M l innerAngle
  setOuterAngle M l outerAngle

/-- The method `Light::bind`: writes every field to the shader under
`lights[nr].<field>`. -/
def bind (self : Light F) (shader : Shader F) (nr : Nat) : Shader F :=
  let name := "lights[" ++ toString nr ++ "]"
  let shader := shader.setInt (name ++ ".type") self.type
  let shader := shader.setVec3 (name ++ ".position") self.Position
  let shader := shader.setVec3 (name ++ ".color") self.Color
  let shader := shader.setFloat (name ++ ".attentuation") self.Attentuation
  let shader := shader.setVec3 (name ++ ".direction") self.Direction
  let shader := shader.setFloat (name ++ ".innerAngle") self.InnerAngle
  shader.setFloat (name ++ ".outerAngle") self.OuterAngle

end Light

/-! ## `camera.h` -/

/-- The class `Camera`; the defaults are those of its constructor. -/
structure Camera (F : Type) [LinearOrderedField F] where
  Position : Vec3 F := ⟨0, 0, 0⟩
  Target : Vec3 F := ⟨0, 0, 0⟩
  Up : Vec3 F := ⟨0, 1, 0⟩

instance : Inhabited (Camera F) := ⟨{}⟩

/-- The method `Camera::GetViewMatrix`. -/
def Camera.GetViewMatrix (M : MathLib F) (self : Camera F) : Mat4 F :=
  lookAt M self.Position self.Target self.Up

/-! ## `main.cpp` -/

/-- The macro `PI`. -/
def PI : F := 3.14159265358979323846

/-- The macro `STATIC_CAMERA`. -/
def STATIC_CAMERA : Nat := 0
/-- The macro `STATIC_FOLLOWING_CAMERA`. -/
def STATIC_FOLLOWING_CAMERA : Nat := 1
/-- The macro `MOVING_CAMERA`. -/
def MOVING_CAMERA : Nat := 2

/-- The macro `STATIC_LIGHT`. -/
def STATIC_LIGHT : Nat := 0
/-- The macro `SUN_LIGHT`. -/
def SUN_LIGHT : Nat := 1
/-- The macro `HEADLIGHTS1_LIGHT`. -/
def HEADLIGHTS1_LIGHT : Nat := 2
/-- The macro `HEADLIGHTS2_LIGHT`. -/
def HEADLIGHTS2_LIGHT : Nat := 3
/-- The macro `BEACON1_LIGHT`. -/
def BEACON1_LIGHT : Nat := 4
/-- The macro `BEACON2_LIGHT`. -/
def BEACON2_LIGHT : Nat := 5

/-- The macro `R`: the radius of the car track. -/
def R : F := 0.4

/-- The function `getCircularPosition`; `time` is the value of `glfwGetTime()`. -/
def getCircularPosition (M : MathLib F) (time : F) (radius : F) (radiusShift : F := 0)
    (angleShift : F := 0) (angleMultiplier : F := 1) : Vec3 F :=
  ⟨(radius + radiusShift) * M.cos (time * angleMultiplier + angleShift),
   0,
   (radius + radiusShift) * M.sin (time * angleMultiplier + angleShift)⟩

/-- The function `moveCameras`. -/
def moveCameras (M : MathLib F) (time : F) (cameras : List (Camera F))
    (carPosition : Vec3 F) : List (Camera F) :=
  let cameras := vecModify cameras STATIC_FOLLOWING_CAMERA
    (fun c => { c with Target := carPosition })
  let cameraShift : F := 0.3
  let cameras := vecModify cameras MOVING_CAMERA
    (fun c => { c with Position := getCircularPosition M time R 0 (-cameraShift) + ⟨0, 0.3, 0⟩ })
  vecModify cameras MOVING_CAMERA
    (fun c => { c with Target := getCircularPosition M time R 0 cameraShift + ⟨0, 0.1, 0⟩ })

/-- The function `moveLights`. -/
def moveLights (M : MathLib F) (time : F) (lights : List (Light F))
    (carPosition : Vec3 F) : List (Light F) :=
  -- sun
  let dayNightCycleSpeed : F := 0.2
  let lights := vecModify lights SUN_LIGHT
    (fun l => { l with Color := Vec3.splat (min (M.cos (time * dayNightCycleSpeed) ^ 2) 1) })
  -- headlights
  let lightCameraShift : F := 0.02
  let lightsDist : F := 0.04
  let lights := vecModify lights HEADLIGHTS1_LIGHT
    (fun l => { l with Position :=
      getCircularPosition M time R (-lightsDist) lightCameraShift + ⟨0, 0.05, 0⟩ })
  let lights := vecModify lights HEADLIGHTS1_LIGHT
    (fun l => { l with Direction :=
      getCircularPosition M time R (-lightsDist) - l.Position + ⟨0, 0.05, 0⟩ })
  let lights := vecModify lights HEADLIGHTS2_LIGHT
    (fun l => { l with Position :=
      getCircularPosition M time R lightsDist lightCameraShift + ⟨0, 0.05, 0⟩ })
  let lights := vecModify lights HEADLIGHTS2_LIGHT
    (fun l => { l with Direction :=
      getCircularPosition M time R lightsDist - l.Position + ⟨0, 0.05, 0⟩ })
  -- beacon
  let beaconSpeed : F := 5
  let lights := vecModify lights BEACON1_LIGHT
    (fun l => { l with Position := carPosition + ⟨0, 0.2, 0⟩ })
  let lights := vecModify lights BEACON1_LIGHT
    (fun l => { l with Direction := carPosition - getCircularPosition M time R 0 0 beaconSpeed })
  let lights := vecModify lights BEACON2_LIGHT
    (fun l => { l with Position := (vecGet lights BEACON1_LIGHT).Position })
  vecModify lights BEACON2_LIGHT
    (fun l => { l with Direction := -(vecGet lights BEACON1_LIGHT).Direction })

/-- The vibration offset of `drawCar`: the vector it passes to its last
`glm::translate`. `r1`, `r2`, `r3` are the results of the three calls of `rand()`. -/
def carVibration (r1 r2 r3 : Nat) : Vec3 F :=
  let rx : F := ((r1 % 10 : Nat) : F)
  let ry : F := ((r2 % 10 : Nat) : F)
  let rz : F := ((r3 % 10 : Nat) : F)
  let vibrationStrength : F := 1.0 / 1500
  ⟨rx * vibrationStrength, ry * vibrationStrength, rz * vibrationStrength⟩

/-- The function `drawCar` up to the draw call: the shader parameters it binds.
`r1`, `r2`, `r3` are the results of its three calls of `rand()`. -/
def drawCar (M : MathLib F) (time : F) (shader : Shader F) (carPosition : Vec3 F)
    (r1 r2 r3 : Nat) : Shader F :=
  let model : Mat4 F := Mat4.identity
  let model := translate model carPosition
  let model := rotate M model (-time + PI / 2) ⟨0, 1, 0⟩
  let model := scale model (Vec3.splat 0.3)
  -- vibrations
  let model := translate model (carVibration r1 r2 r3)
  let shader := shader.setMat4 "model" model
  let shader := shader.setBool "use_color" true
  shader.setVec3 "color" ⟨0.05, 0.05, 0.05⟩

/-- The function `setupCameras`. -/
def setupCameras : List (Camera F) :=
  let cameras : List (Camera F) := []
  let staticCamera : Camera F := { Position := ⟨0.9, 0.9, 0.9⟩ }
  let staticFollowingCamera : Camera F := { Position := ⟨0.0, 0.5, 0.0⟩ }
  let movingCamera : Camera F := { Position := ⟨2.0, 2.0, 2.0⟩ }
  let cameras := cameras ++ [staticCamera]
  let cameras := cameras ++ [staticFollowingCamera]
  cameras ++ [movingCamera]

/-- The function `setupLights`. -/
def setupLights (M : MathLib F) : List (Light F) :=
  let lights : List (Light F) := []
  let pl : Light F := default
  let pl := pl.makePoint ⟨1.0, 1.0, -1.0⟩
  let pl := { pl with Color := Vec3.splat 0.4 }
  let lights := lights ++ [pl]
  let sl : Light F := default
  let sl := sl.makeDirectional ⟨1.0, 2.0, 1.0⟩
  let lights := lights ++ [sl]
  let hl1 : Light F := default
  let hl1 := hl1.makeSpotlight M (Vec3.splat 1.0) (Vec3.splat 1.0)
  let lights := lights ++ [hl1]
  let hl2 : Light F := default
  let hl2 := hl2.makeSpotlight M (Vec3.splat 1.0) (Vec3.splat 1.0)
  let lights := lights ++ [hl2]
  let bl1 : Light F := default
  let bl1 := bl1.makeSpotlight M (Vec3.splat 1.0) (Vec3.splat 0.0)
  let bl1 := { bl1 with Color := ⟨1.0, 0.15, 0.15⟩ }
  let bl1 := bl1.setInnerAngle M 40.0
  let bl1 := bl1.setOuterAngle M 45.0
  let lights := lights ++ [bl1]
  let bl2 : Light F := default
  let bl2 := bl2.makeSpotlight M (Vec3.splat 1.0) (Vec3.splat 0.0)
  let bl2 := { bl2 with Color := ⟨0.15, 0.15, 1.0⟩ }
  let bl2 := bl2.setInnerAngle M 40.0
  let bl2 := bl2.setOuterAngle M 45.0
  lights ++ [bl2]

/-- The two lengths `glm::lookAt` divides by are not zero: that of the view
direction `center - eye` and that of the cross product of the normalised view
direction with `up`. -/
def lookAtDefined (M : MathLib F) (eye center up : Vec3 F) : Prop :=
  M.sqrt (Vec3.dot (center - eye) (center - eye)) ≠ 0 ∧
  M.sqrt (Vec3.dot (Vec3.cross (Vec3.normalize M (center - eye)) up)
    (Vec3.cross (Vec3.normalize M (center - eye)) up)) ≠ 0

end Defs

/-! ## Evaluation on small inputs (rational scalars) -/

example : (drawCar (F := ℚ) ⟨id, id, id, 3⟩ 0 {} ⟨0, 0, 0⟩ 9 9 9).lookup "use_color"
    = some (Uniform.bool true) := by decide

example : (carVibration 19 4 0 : Vec3 ℚ) = ⟨9 / 1500, 4 / 1500, 0⟩ := by
  norm_num [carVibration]

example : (((default : Light ℚ).makeDirectional ⟨1, 2, 1⟩).bind {} 0).lookup "lights[0].type"
    = some (Uniform.int 0) := by decide

/-! ## Auxiliary facts -/

@[simp] theorem realMath_cos : realMath.cos = Real.cos := rfl
@[simp] theorem realMath_sin : realMath.sin = Real.sin := rfl
@[simp] theorem realMath_sqrt : realMath.sqrt = Real.sqrt := rfl
@[simp] theorem realMath_pi : realMath.pi = Real.pi := rfl

/-- A vector with at least six slots, written out. -/
theorem six_slots {α : Type} (l : List α) (h : BEACON2_LIGHT < l.length) :
    ∃ a b c d e f rest, l = a :: b :: c :: d :: e :: f :: rest := by
  match l, h with
  | a :: b :: c :: d :: e :: f :: rest, _ => exact ⟨a, b, c, d, e, f, rest, rfl⟩

/-! ## The sun and the beacons (`moveLights`) -/

/-- C1: for every time `t`, `moveLights` keeps every slot of the light list and
leaves in the sun slot the light that was there with only its colour replaced;
the new colour has three equal channels, their common value is
`min (cos (0.2 * t) ^ 2) 1`, and it lies in `[0, 1]`. -/
theorem moveLights_sun_color (lights : List (Light ℝ)) (carPosition : Vec3 ℝ) (t : ℝ)
    (h : BEACON2_LIGHT < lights.length) :
    (moveLights realMath t lights carPosition).length = lights.length ∧
    ∃ (old sun : Light ℝ) (v : ℝ),
      lights[SUN_LIGHT]? = some old ∧
      (moveLights realMath t lights carPosition)[SUN_LIGHT]? = some sun ∧
      sun = { old with Color := ⟨v, v, v⟩ } ∧
      sun.Color = ⟨v, v, v⟩ ∧
      v = min (Real.cos (t * 0.2) ^ 2) 1 ∧
      0 ≤ v ∧ v ≤ 1 := by
  obtain ⟨a, b, c, d, e, f, rest, rfl⟩ := six_slots lights h
  refine ⟨?_, b, { b with Color := ⟨min (Real.cos (t * 0.2) ^ 2) 1, min (Real.cos (t * 0.2) ^ 2) 1,
    min (Real.cos (t * 0.2) ^ 2) 1⟩ }, min (Real.cos (t * 0.2) ^ 2) 1, ?_, ?_, rfl, rfl, rfl,
    le_min (sq_nonneg _) zero_le_one, min_le_right _ _⟩
  · simp [moveLights, vecModify, vecGet, SUN_LIGHT, HEADLIGHTS1_LIGHT, HEADLIGHTS2_LIGHT,
      BEACON1_LIGHT, BEACON2_LIGHT]
  · simp [SUN_LIGHT]
  · simp [moveLights, vecModify, vecGet, Vec3.splat, SUN_LIGHT, HEADLIGHTS1_LIGHT,
      HEADLIGHTS2_LIGHT, BEACON1_LIGHT, BEACON2_LIGHT]

/-- C8: `moveLights` keeps every slot of the light list, and in its result the
direction of the first beacon is `carPosition - getCircularPosition(R, 0, 0, 5)`
and the direction of the second beacon is the exact componentwise negation of
the direction of the first. -/
theorem moveLights_beacon_directions (lights : List (Light ℝ)) (carPosition : Vec3 ℝ) (t : ℝ)
    (h : BEACON2_LIGHT < lights.length) :
    (moveLights realMath t lights carPosition).length = lights.length ∧
    ∃ b1 b2 : Light ℝ,
      (moveLights realMath t lights carPosition)[BEACON1_LIGHT]? = some b1 ∧
      (moveLights realMath t lights carPosition)[BEACON2_LIGHT]? = some b2 ∧
      b1.Direction = carPosition - getCircularPosition realMath t R 0 0 5 ∧
      b2.Direction = -b1.Direction ∧
      b2.Direction = ⟨-b1.Direction.x, -b1.Direction.y, -b1.Direction.z⟩ := by
  obtain ⟨a, b, c, d, e, f, rest, rfl⟩ := six_slots lights h
  refine ⟨?_,
    { e with Position := carPosition + ⟨0, 0.2, 0⟩,
             Direction := carPosition - getCircularPosition realMath t R 0 0 5 },
    { f with Position := carPosition + ⟨0, 0.2, 0⟩,
             Direction := -(carPosition - getCircularPosition realMath t R 0 0 5) },
    ?_, ?_, rfl, rfl, rfl⟩
  · simp [moveLights, vecModify, vecGet, SUN_LIGHT, HEADLIGHTS1_LIGHT, HEADLIGHTS2_LIGHT,
      BEACON1_LIGHT, BEACON2_LIGHT]
  · simp [moveLights, vecModify, vecGet, SUN_LIGHT, HEADLIGHTS1_LIGHT, HEADLIGHTS2_LIGHT,
      BEACON1_LIGHT, BEACON2_LIGHT]
  · simp [moveLights, vecModify, vecGet, SUN_LIGHT, HEADLIGHTS1_LIGHT, HEADLIGHTS2_LIGHT,
      BEACON1_LIGHT, BEACON2_LIGHT]

/-- Witness of C1: the scene's own light list at time `0`. -/
theorem moveLights_sun_color_witness :
    BEACON2_LIGHT < (setupLights realMath).length ∧
    (moveLights realMath 0 (setupLights realMath) ⟨0.4, 0, 0⟩).length
      = (setupLights realMath).length ∧
    ∃ (old sun : Light ℝ) (v : ℝ),
      (setupLights realMath)[SUN_LIGHT]? = some old ∧
      (moveLights realMath 0 (setupLights realMath) ⟨0.4, 0, 0⟩)[SUN_LIGHT]? = some sun ∧
      sun = { old with Color := ⟨v, v, v⟩ } ∧
      sun.Color = ⟨v, v, v⟩ ∧
      v = min (Real.cos (0 * 0.2) ^ 2) 1 ∧
      0 ≤ v ∧ v ≤ 1 :=
  ⟨by simp [setupLights, BEACON2_LIGHT],
   moveLights_sun_color (setupLights realMath) ⟨0.4, 0, 0⟩ 0 (by simp [setupLights, BEACON2_LIGHT])⟩

/-- Witness of C8: the scene's own light list at time `1`. -/
theorem moveLights_beacon_directions_witness :
    BEACON2_LIGHT < (setupLights realMath).length ∧
    (moveLights realMath 1 (setupLights realMath) ⟨0, 0, 0.4⟩).length
      = (setupLights realMath).length ∧
    ∃ b1 b2 : Light ℝ,
      (moveLights realMath 1 (setupLights realMath) ⟨0, 0, 0.4⟩)[BEACON1_LIGHT]? = some b1 ∧
      (moveLights realMath 1 (setupLights realMath) ⟨0, 0, 0.4⟩)[BEACON2_LIGHT]? = some b2 ∧
      b1.Direction = (⟨0, 0, 0.4⟩ : Vec3 ℝ) - getCircularPosition realMath 1 R 0 0 5 ∧
      b2.Direction = -b1.Direction ∧
      b2.Direction = ⟨-b1.Direction.x, -b1.Direction.y, -b1.Direction.z⟩ :=
  ⟨by simp [setupLights, BEACON2_LIGHT],
   moveLights_beacon_directions (setupLights realMath) ⟨0, 0, 0.4⟩ 1
     (by simp [setupLights, BEACON2_LIGHT])⟩

/-! ## Cone angles (`light.h`) -/

/-- The cosine of an angle given in degrees is strictly decreasing on `[0, 180]`. -/
theorem cos_radians_lt {a b : ℝ} (ha : 0 ≤ a) (hab : a < b) (hb : b ≤ 180) :
    realMath.cos (radians realMath b) < realMath.cos (radians realMath a) := by
  have hpi : 0 < Real.pi / 180 := by positivity
  simp only [realMath_cos, radians, realMath_pi]
  apply Real.strictAntiOn_cos
  · exact ⟨by positivity, by nlinarith [Real.pi_pos]⟩
  · exact ⟨by nlinarith, by nlinarith [Real.pi_pos]⟩
  · exact mul_lt_mul_of_pos_right hab hpi

/-- The cosine of an angle given in degrees is decreasing on `[0, 180]`. -/
theorem cos_radians_le {a b : ℝ} (ha : 0 ≤ a) (hab : a ≤ b) (hb : b ≤ 180) :
    realMath.cos (radians realMath b) ≤ realMath.cos (radians realMath a) := by
  rcases hab.lt_or_eq with h | h
  · exact (cos_radians_lt ha h hb).le
  · rw [h]

/-- C2: a spotlight made with the default cone angles (13 and 16 degrees), at any
position and direction (and with any colour and attenuation), stores an inner
cutoff cosine strictly greater than its outer cutoff cosine. -/
theorem makeSpotlight_default_inner_gt_outer (self : Light ℝ) (position direction : Vec3 ℝ)
    (color : Vec3 ℝ) (attentuation : ℝ) :
    (self.makeSpotlight realMath position direction).OuterAngle
      < (self.makeSpotlight realMath position direction).InnerAngle ∧
    (self.makeSpotlight realMath position direction 13 16 color attentuation).OuterAngle
      < (self.makeSpotlight realMath position direction 13 16 color attentuation).InnerAngle := by
  simp only [Light.makeSpotlight, Light.setInnerAngle, Light.setOuterAngle, and_self]
  exact cos_radians_lt (by norm_num) (by norm_num) (by norm_num)

/-- C3: for every angle `a` in degrees (so for every `a` in `[0, 180]`), after
`setOuterAngle a` the stored outer cutoff is `cos (a * pi / 180)`, and no other
field of the light has changed. -/
theorem setOuterAngle_stores_cos (self : Light ℝ) (a : ℝ) :
    (self.setOuterAngle realMath a).OuterAngle = Real.cos (a * Real.pi / 180) ∧
    self.setOuterAngle realMath a = { self with OuterAngle := Real.cos (a * Real.pi / 180) } := by
  simp only [Light.setOuterAngle, radians, realMath_cos, realMath_pi, mul_div_assoc, and_self]

/-- The spotlight invariant of the spec: the inner cutoff cosine is at least the
outer cutoff cosine. -/
def coneInvariant (l : Light ℝ) : Prop :=
  l.OuterAngle ≤ l.InnerAngle

/-- C4, counterexample: in the beacon setup of `setupLights`, the state between
`setInnerAngle(40)` and `setOuterAngle(45)` has an inner cutoff cosine (of 40
degrees) strictly below the outer one (still that of 16 degrees). -/
theorem coneInvariant_fails_between_beacon_setters :
    ¬ coneInvariant
      ((((default : Light ℝ).makeSpotlight realMath (Vec3.splat 1.0) (Vec3.splat 0.0)).setInnerAngle
        realMath 40.0)) := by
  simp only [coneInvariant, Light.makeSpotlight, Light.setInnerAngle, Light.setOuterAngle, not_le]
  exact cos_radians_lt (by norm_num) (by norm_num) (by norm_num)

/-- C4, amended: the invariant holds right after `makeSpotlight` with the default
angles; it holds after `setInnerAngle a` followed by `setOuterAngle b` whenever
`0 ≤ a ≤ b ≤ 180` (the beacon setup is `a = 40`, `b = 45`); and after one setter
call on a freshly made default spotlight it holds exactly when the new inner
angle is at most 16 degrees, or the new outer angle at least 13 degrees. -/
theorem coneInvariant_spotlight (self : Light ℝ) (position direction : Vec3 ℝ) (a b : ℝ)
    (ha : 0 ≤ a) (hab : a ≤ b) (hb : b ≤ 180) :
    coneInvariant (self.makeSpotlight realMath position direction) ∧
    coneInvariant ((self.setInnerAngle realMath a).setOuterAngle realMath b) ∧
    coneInvariant
      (((self.makeSpotlight realMath position direction).setInnerAngle realMath a).setOuterAngle
        realMath b) ∧
    (coneInvariant ((self.makeSpotlight realMath position direction).setInnerAngle realMath a)
      ↔ a ≤ 16) ∧
    (coneInvariant ((self.makeSpotlight realMath position direction).setOuterAngle realMath b)
      ↔ 13 ≤ b) := by
  simp only [coneInvariant, Light.makeSpotlight, Light.setInnerAngle, Light.setOuterAngle]
  refine ⟨cos_radians_le (by norm_num) (by norm_num) (by norm_num), cos_radians_le ha hab hb,
    cos_radians_le ha hab hb, ⟨fun h => ?_, fun h => cos_radians_le ha h (by norm_num)⟩,
    ⟨fun h => ?_, fun h => cos_radians_le (by norm_num) h hb⟩⟩
  · by_contra hlt
    exact absurd h (not_le.mpr (cos_radians_lt (by norm_num) (not_le.mp hlt) (hab.trans hb)))
  · by_contra hlt
    exact absurd h (not_le.mpr (cos_radians_lt (ha.trans hab) (not_le.mp hlt) (by norm_num)))

/-- Witness of C4 (amended): the beacon angles, 40 and 45 degrees. -/
theorem coneInvariant_spotlight_witness :
    ((0 : ℝ) ≤ 40 ∧ (40 : ℝ) ≤ 45 ∧ (45 : ℝ) ≤ 180) ∧
    coneInvariant ((default : Light ℝ).makeSpotlight realMath (Vec3.splat 1.0) (Vec3.splat 0.0)) ∧
    coneInvariant
      ((((default : Light ℝ).makeSpotlight realMath (Vec3.splat 1.0) (Vec3.splat 0.0)).setInnerAngle
        realMath 40).setOuterAngle realMath 45) :=
  have h := coneInvariant_spotlight default (Vec3.splat 1.0) (Vec3.splat 0.0) 40 45
    (by norm_num) (by norm_num) (by norm_num)
  ⟨⟨by norm_num, by norm_num, by norm_num⟩, h.1, h.2.2.1⟩

/-! ## The circular track (`getCircularPosition`) -/

/-- C5: with `radiusShift = 0`, `angleShift = 0` and `angleMultiplier = 1`,
`getCircularPosition` is `(r, 0, 0)` at time `0` and `(0, 0, r)` at time `pi / 2`. -/
theorem getCircularPosition_quarter_turn (r : ℝ) :
    getCircularPosition realMath 0 r 0 0 1 = ⟨r, 0, 0⟩ ∧
    getCircularPosition realMath (Real.pi / 2) r 0 0 1 = ⟨0, 0, r⟩ := by
  simp [getCircularPosition]

/-! ## Binding a light (`Light::bind`) -/

/-- Two parameter names built on the same prefix differ when their suffixes differ. -/
theorem append_ne_append (p s₁ s₂ : String) (h : s₁ ≠ s₂) : p ++ s₁ ≠ p ++ s₂ := by
  intro heq
  apply h
  have hd := congrArg String.data heq
  simp only [String.data_append, List.append_cancel_left_eq] at hd
  exact String.ext hd

/-- C7: binding a light made by `makeDirectional` at index `n` leaves the integer
`0` bound to the parameter `lights[<n>].type`, `n` written in decimal (the
binding is made, and no later write of `bind` replaces it); for the sun light
of the scene, direction `(1, 2, 1)`, at index `0` the parameter is
`lights[0].type`. -/
theorem bind_directional_type (self : Light ℝ) (d c : Vec3 ℝ) (n : Nat) (shader : Shader ℝ) :
    ((self.makeDirectional d c).bind shader n).lookup ("lights[" ++ toString n ++ "].type")
      = some (Uniform.int 0) ∧
    ("lights[" ++ toString n ++ "].type", Uniform.int 0)
      ∈ ((self.makeDirectional d c).bind shader n).bindings ∧
    (((default : Light ℝ).makeDirectional ⟨1.0, 2.0, 1.0⟩).bind {} 0).lookup "lights[0].type"
      = some (Uniform.int 0) := by
  have key : "lights[" ++ toString n ++ "].type" = "lights[" ++ toString n ++ "]" ++ ".type" := by
    have h : "].type" = "]" ++ ".type" := by decide
    rw [h, String.append_assoc, String.append_assoc, String.append_assoc]
  refine ⟨?_, ?_, ?_⟩
  · rw [key]
    have ne : ∀ s : String, ".type" ≠ s →
        ("lights[" ++ toString n ++ "]" ++ ".type" == "lights[" ++ toString n ++ "]" ++ s)
          = false := fun s hs => by
      simpa using append_ne_append _ _ _ hs
    simp [Light.bind, Light.makeDirectional, Shader.lookup, Shader.setInt, Shader.setFloat,
      Shader.setVec3, List.lookup, DIRECTIONAL_LIGHT_TYPE, ne]
  · rw [key]
    simp [Light.bind, Light.makeDirectional, Shader.setInt, Shader.setFloat, Shader.setVec3,
      DIRECTIONAL_LIGHT_TYPE]
  · simp [Light.bind, Light.makeDirectional, Shader.lookup, Shader.setInt, Shader.setFloat,
      Shader.setVec3, List.lookup, DIRECTIONAL_LIGHT_TYPE]
    decide

/-! ## Vector arithmetic, componentwise -/

theorem vec3_add_def {F : Type} [LinearOrderedField F] (a b : Vec3 F) :
    a + b = ⟨a.x + b.x, a.y + b.y, a.z + b.z⟩ := rfl

theorem vec3_sub_def {F : Type} [LinearOrderedField F] (a b : Vec3 F) :
    a - b = ⟨a.x - b.x, a.y - b.y, a.z - b.z⟩ := rfl

theorem vec3_neg_def {F : Type} [LinearOrderedField F] (a : Vec3 F) :
    -a = ⟨-a.x, -a.y, -a.z⟩ := rfl

theorem vec4_add_def {F : Type} [LinearOrderedField F] (a b : Vec4 F) :
    a + b = ⟨a.x + b.x, a.y + b.y, a.z + b.z, a.w + b.w⟩ := rfl

/-! ## The static camera (`Camera::GetViewMatrix`) -/

/-- C6: the scene's static camera (position `(0.9, 0.9, 0.9)`, target the origin,
up `+Y`) has a view matrix that maps its own position to the origin of view
space and the world origin to a point with strictly negative `z`. -/
theorem staticCamera_view :
    vecGet (setupCameras : List (Camera ℝ)) STATIC_CAMERA
      = { Position := ⟨0.9, 0.9, 0.9⟩, Target := ⟨0, 0, 0⟩, Up := ⟨0, 1, 0⟩ } ∧
    (Camera.GetViewMatrix realMath
        { Position := ⟨0.9, 0.9, 0.9⟩, Target := ⟨0, 0, 0⟩, Up := ⟨0, 1, 0⟩ }).mulVec
      ⟨0.9, 0.9, 0.9, 1⟩ = ⟨0, 0, 0, 1⟩ ∧
    ((Camera.GetViewMatrix realMath
        { Position := ⟨0.9, 0.9, 0.9⟩, Target := ⟨0, 0, 0⟩, Up := ⟨0, 1, 0⟩ }).mulVec
      ⟨0, 0, 0, 1⟩).z < 0 := by
  refine ⟨by simp [setupCameras, vecGet, STATIC_CAMERA], ?_, ?_⟩
  · simp only [Camera.GetViewMatrix, lookAt, Mat4.mulVec, Vec4.scale, vec4_add_def, Vec3.dot,
      Vec4.mk.injEq]
    refine ⟨by ring, by ring, by ring, by ring⟩
  · have hk : (0 : ℝ) < 1 / Real.sqrt ((0 - 0.9) * (0 - 0.9) + (0 - 0.9) * (0 - 0.9)
        + (0 - 0.9) * (0 - 0.9)) := by
      apply one_div_pos.mpr
      apply Real.sqrt_pos.mpr
      norm_num
    simp only [Camera.GetViewMatrix, lookAt, Mat4.mulVec, Vec4.scale, vec4_add_def, Vec3.dot,
      Vec3.normalize, Vec3.scale, vec3_sub_def, inversesqrt, realMath_sqrt]
    nlinarith [hk]

/-! ## The vibration of the car (`drawCar`) -/

/-- The model matrix that `drawCar` binds to the parameter `model`. -/
theorem drawCar_lookup_model {F : Type} [LinearOrderedField F] (M : MathLib F) (time : F)
    (shader : Shader F) (carPosition : Vec3 F) (r1 r2 r3 : Nat) :
    (drawCar M time shader carPosition r1 r2 r3).lookup "model"
      = some (Uniform.mat4 (translate (scale (rotate M (translate Mat4.identity carPosition)
          (-time + PI / 2) ⟨0, 1, 0⟩) (Vec3.splat 0.3)) (carVibration r1 r2 r3))) := by
  have h1 : ("model" == "color") = false := by decide
  have h2 : ("model" == "use_color") = false := by decide
  simp [drawCar, Shader.lookup, Shader.setMat4, Shader.setBool, Shader.setVec3, List.lookup,
    h1, h2]

/-- The translation column of the car's model matrix: the car position plus the
vibration offset, rotated about the `y` axis and scaled by `0.3`. -/
theorem carModel_translation (time : ℝ) (p v : Vec3 ℝ) :
    (translate (scale (rotate realMath (translate Mat4.identity p)
        (-time + PI / 2) ⟨0, 1, 0⟩) (Vec3.splat 0.3)) v).c3
      = ⟨0.3 * Real.cos (-time + PI / 2) * v.x + 0.3 * Real.sin (-time + PI / 2) * v.z + p.x,
         0.3 * v.y + p.y,
         -(0.3 * Real.sin (-time + PI / 2)) * v.x + 0.3 * Real.cos (-time + PI / 2) * v.z + p.z,
         1⟩ := by
  simp only [translate, scale, rotate, Mat4.identity, Vec4.scale, vec4_add_def, Vec3.splat,
    Vec3.normalize, Vec3.scale, Vec3.dot, inversesqrt, realMath_sqrt, realMath_cos, realMath_sin,
    Vec4.mk.injEq]
  norm_num
  refine ⟨by ring, by ring⟩

/-- C9, counterexample: when the three calls of `rand()` return 9, the vibration
offset is `9 / 1500` on the `y` axis, and the car's origin is moved by
`0.3 * 9 / 1500` along the world `y` axis; both exceed `1 / 1500`. -/
theorem carVibration_exceeds_strength :
    (1 : ℝ) / 1500 < |(carVibration 9 9 9 : Vec3 ℝ).y| ∧
    ∃ m : Mat4 ℝ,
      (drawCar realMath 0 {} ⟨0.4, 0, 0⟩ 9 9 9).lookup "model" = some (Uniform.mat4 m) ∧
      (1 : ℝ) / 1500 < |m.c3.y - 0| := by
  refine ⟨?_, ⟨_, drawCar_lookup_model realMath 0 {} ⟨0.4, 0, 0⟩ 9 9 9, ?_⟩⟩
  · rw [lt_abs]
    left
    norm_num [carVibration]
  · rw [lt_abs, carModel_translation]
    left
    norm_num [carVibration]

/-- C9, amended: for every outcome of the three `rand()` draws, the vibration
offset given to `glm::translate` is `(r1 % 10, r2 % 10, r3 % 10) / 1500`, so each
component lies in `[0, 9 / 1500]`; and the matrix bound to `model` places the
car's origin within `9 / 1500` of `carPosition` on each world axis. -/
theorem carVibration_bound (time : ℝ) (shader : Shader ℝ) (carPosition : Vec3 ℝ)
    (r1 r2 r3 : Nat) :
    (carVibration r1 r2 r3 : Vec3 ℝ)
      = ⟨((r1 % 10 : Nat) : ℝ) / 1500, ((r2 % 10 : Nat) : ℝ) / 1500,
         ((r3 % 10 : Nat) : ℝ) / 1500⟩ ∧
    (0 ≤ (carVibration r1 r2 r3 : Vec3 ℝ).x ∧ (carVibration r1 r2 r3 : Vec3 ℝ).x ≤ 9 / 1500) ∧
    (0 ≤ (carVibration r1 r2 r3 : Vec3 ℝ).y ∧ (carVibration r1 r2 r3 : Vec3 ℝ).y ≤ 9 / 1500) ∧
    (0 ≤ (carVibration r1 r2 r3 : Vec3 ℝ).z ∧ (carVibration r1 r2 r3 : Vec3 ℝ).z ≤ 9 / 1500) ∧
    ∃ m : Mat4 ℝ,
      (drawCar realMath time shader carPosition r1 r2 r3).lookup "model"
        = some (Uniform.mat4 m) ∧
      |m.c3.x - carPosition.x| ≤ 9 / 1500 ∧
      |m.c3.y - carPosition.y| ≤ 9 / 1500 ∧
      |m.c3.z - carPosition.z| ≤ 9 / 1500 := by
  have hv : (carVibration r1 r2 r3 : Vec3 ℝ)
      = ⟨((r1 % 10 : Nat) : ℝ) / 1500, ((r2 % 10 : Nat) : ℝ) / 1500,
         ((r3 % 10 : Nat) : ℝ) / 1500⟩ := by
    simp only [carVibration, Vec3.mk.injEq]
    refine ⟨by ring, by ring, by ring⟩
  have hr : ∀ r : Nat, (0 : ℝ) ≤ ((r % 10 : Nat) : ℝ) / 1500 ∧
      ((r % 10 : Nat) : ℝ) / 1500 ≤ 9 / 1500 := by
    intro r
    have h9 : r % 10 ≤ 9 := by omega
    have h9r : ((r % 10 : Nat) : ℝ) ≤ 9 := by exact_mod_cast h9
    constructor
    · positivity
    · linarith
  obtain ⟨hx0, hx9⟩ := hr r1
  obtain ⟨hy0, hy9⟩ := hr r2
  obtain ⟨hz0, hz9⟩ := hr r3
  refine ⟨hv, ?_, ?_, ?_, ⟨_, drawCar_lookup_model realMath time shader carPosition r1 r2 r3, ?_⟩⟩
  · rw [hv]; exact ⟨hx0, hx9⟩
  · rw [hv]; exact ⟨hy0, hy9⟩
  · rw [hv]; exact ⟨hz0, hz9⟩
  · rw [carModel_translation, hv]
    simp only
    generalize ((r1 % 10 : Nat) : ℝ) / 1500 = vx at hx0 hx9
    generalize ((r2 % 10 : Nat) : ℝ) / 1500 = vy at hy0 hy9
    generalize ((r3 % 10 : Nat) : ℝ) / 1500 = vz at hz0 hz9
    generalize (-time + PI / 2 : ℝ) = θ
    have hc1 := Real.cos_le_one θ
    have hc2 := Real.neg_one_le_cos θ
    have hs1 := Real.sin_le_one θ
    have hs2 := Real.neg_one_le_sin θ
    refine ⟨abs_le.mpr ⟨?_, ?_⟩, abs_le.mpr ⟨?_, ?_⟩, abs_le.mpr ⟨?_, ?_⟩⟩ <;>
      nlinarith [mul_nonneg hx0 (sub_nonneg.mpr hc1), mul_nonneg hx0 (sub_nonneg.mpr hc2),
        mul_nonneg hz0 (sub_nonneg.mpr hc1), mul_nonneg hz0 (sub_nonneg.mpr hc2),
        mul_nonneg hx0 (sub_nonneg.mpr hs1), mul_nonneg hx0 (sub_nonneg.mpr hs2),
        mul_nonneg hz0 (sub_nonneg.mpr hs1), mul_nonneg hz0 (sub_nonneg.mpr hs2)]

/-! ## The cameras (`moveCameras`) -/

/-- When the view direction `center - eye` is not parallel to `up` (their cross
product is not zero), `eye` differs from `center` and `glm::lookAt` divides by
no zero length. -/
theorem lookAtDefined_of_cross_ne (eye center up : Vec3 ℝ)
    (h : Vec3.cross (center - eye) up ≠ ⟨0, 0, 0⟩) :
    eye ≠ center ∧ lookAtDefined realMath eye center up := by
  obtain ⟨ex, ey, ez⟩ := eye
  obtain ⟨cx, cy, cz⟩ := center
  obtain ⟨ux, uy, uz⟩ := up
  simp only [Vec3.cross, vec3_sub_def, ne_eq, Vec3.mk.injEq, not_and] at h
  have hd : 0 < (cx - ex) * (cx - ex) + (cy - ey) * (cy - ey) + (cz - ez) * (cz - ez) := by
    by_contra hneg
    have hx : cx - ex = 0 := by nlinarith [sq_nonneg (cx - ex), sq_nonneg (cy - ey), sq_nonneg (cz - ez)]
    have hy : cy - ey = 0 := by nlinarith [sq_nonneg (cx - ex), sq_nonneg (cy - ey), sq_nonneg (cz - ez)]
    have hz : cz - ez = 0 := by nlinarith [sq_nonneg (cx - ex), sq_nonneg (cy - ey), sq_nonneg (cz - ez)]
    exact h (by rw [hy, hz]; ring) (by rw [hz, hx]; ring) (by rw [hx, hy]; ring)
  have hn : 0 < ((cy - ey) * uz - uy * (cz - ez)) ^ 2 + ((cz - ez) * ux - uz * (cx - ex)) ^ 2
      + ((cx - ex) * uy - ux * (cy - ey)) ^ 2 := by
    by_contra hneg
    have h1 : (cy - ey) * uz - uy * (cz - ez) = 0 := by
      nlinarith [sq_nonneg ((cy - ey) * uz - uy * (cz - ez)),
        sq_nonneg ((cz - ez) * ux - uz * (cx - ex)), sq_nonneg ((cx - ex) * uy - ux * (cy - ey))]
    have h2 : (cz - ez) * ux - uz * (cx - ex) = 0 := by
      nlinarith [sq_nonneg ((cy - ey) * uz - uy * (cz - ez)),
        sq_nonneg ((cz - ez) * ux - uz * (cx - ex)), sq_nonneg ((cx - ex) * uy - ux * (cy - ey))]
    have h3 : (cx - ex) * uy - ux * (cy - ey) = 0 := by
      nlinarith [sq_nonneg ((cy - ey) * uz - uy * (cz - ez)),
        sq_nonneg ((cz - ez) * ux - uz * (cx - ex)), sq_nonneg ((cx - ex) * uy - ux * (cy - ey))]
    exact h h1 h2 h3
  have hs := Real.sqrt_pos.mpr hd
  have hk : 0 < 1 / Real.sqrt ((cx - ex) * (cx - ex) + (cy - ey) * (cy - ey)
      + (cz - ez) * (cz - ez)) := one_div_pos.mpr hs
  refine ⟨?_, ?_, ?_⟩
  · intro heq
    simp only [Vec3.mk.injEq] at heq
    obtain ⟨h1, h2, h3⟩ := heq
    subst h1 h2 h3
    simp at hd
  · simp only [Vec3.dot, vec3_sub_def, realMath_sqrt]
    exact hs.ne.symm
  · simp only [Vec3.dot, Vec3.cross, Vec3.normalize, Vec3.scale, vec3_sub_def, inversesqrt,
      realMath_sqrt]
    apply ne_of_gt
    apply Real.sqrt_pos.mpr
    generalize 1 / Real.sqrt ((cx - ex) * (cx - ex) + (cy - ey) * (cy - ey)
      + (cz - ez) * (cz - ez)) = k at hk
    have hk2 : 0 < k ^ 2 := by positivity
    have key : ((cy - ey) * k * uz - uy * ((cz - ez) * k)) * ((cy - ey) * k * uz - uy * ((cz - ez) * k))
        + ((cz - ez) * k * ux - uz * ((cx - ex) * k)) * ((cz - ez) * k * ux - uz * ((cx - ex) * k))
        + ((cx - ex) * k * uy - ux * ((cy - ey) * k)) * ((cx - ex) * k * uy - ux * ((cy - ey) * k))
        = k ^ 2 * (((cy - ey) * uz - uy * (cz - ez)) ^ 2 + ((cz - ez) * ux - uz * (cx - ex)) ^ 2
            + ((cx - ex) * uy - ux * (cy - ey)) ^ 2) := by ring
    rw [key]
    exact mul_pos hk2 hn

/-- The cameras of the scene after `moveCameras` at time `t`. -/
theorem moveCameras_setupCameras (t : ℝ) (carPosition : Vec3 ℝ) :
    moveCameras realMath t setupCameras carPosition
      = [{ Position := ⟨0.9, 0.9, 0.9⟩ },
         { Position := ⟨0.0, 0.5, 0.0⟩, Target := carPosition },
         { Position := getCircularPosition realMath t R 0 (-0.3) + ⟨0, 0.3, 0⟩,
           Target := getCircularPosition realMath t R 0 0.3 + ⟨0, 0.1, 0⟩ }] := by
  simp [moveCameras, setupCameras, vecModify, STATIC_FOLLOWING_CAMERA, MOVING_CAMERA]

/-- C10: at every time `t`, each of the three cameras left by `moveCameras` (run
on the cameras of `setupCameras` with the car on its track at time `t`) has a
position different from its target and a view direction not parallel to its up
vector, so that `glm::lookAt` in `GetViewMatrix` divides by no zero length. -/
theorem moveCameras_lookAt_defined (t : ℝ) :
    (moveCameras realMath t setupCameras (getCircularPosition realMath t R)).length = 3 ∧
    ∀ c ∈ moveCameras realMath t setupCameras (getCircularPosition realMath t R),
      c.Position ≠ c.Target ∧
      Vec3.cross (c.Target - c.Position) c.Up ≠ ⟨0, 0, 0⟩ ∧
      lookAtDefined realMath c.Position c.Target c.Up := by
  have hsc := Real.sin_sq_add_cos_sq t
  have hs3 : 0 < Real.sin 0.3 :=
    Real.sin_pos_of_pos_of_lt_pi (by norm_num) (by linarith [Real.pi_gt_three])
  have main : ∀ c : Camera ℝ, Vec3.cross (c.Target - c.Position) c.Up ≠ ⟨0, 0, 0⟩ →
      c.Position ≠ c.Target ∧ Vec3.cross (c.Target - c.Position) c.Up ≠ ⟨0, 0, 0⟩ ∧
      lookAtDefined realMath c.Position c.Target c.Up := fun c h =>
    ⟨(lookAtDefined_of_cross_ne _ _ _ h).1, h, (lookAtDefined_of_cross_ne _ _ _ h).2⟩
  rw [moveCameras_setupCameras]
  refine ⟨rfl, ?_⟩
  intro c hc
  simp only [List.mem_cons, List.mem_singleton, List.not_mem_nil, or_false] at hc
  rcases hc with rfl | rfl | rfl
  · apply main
    simp only [Vec3.cross, vec3_sub_def, ne_eq, Vec3.mk.injEq, not_and]
    intro h1
    norm_num at h1
  · apply main
    simp only [Vec3.cross, vec3_sub_def, getCircularPosition, R, realMath_cos, realMath_sin, ne_eq,
      Vec3.mk.injEq, not_and]
    intro h1 _ h3
    norm_num at h1 h3
    rw [h1, h3] at hsc
    norm_num at hsc
  · apply main
    simp only [Vec3.cross, vec3_sub_def, vec3_add_def, getCircularPosition, R, realMath_cos,
      realMath_sin, ne_eq, Vec3.mk.injEq, not_and]
    intro h1 _ h3
    have e1 : t * 1 + (-0.3 : ℝ) = t - 0.3 := by ring
    have e2 : t * 1 + (0.3 : ℝ) = t + 0.3 := by ring
    rw [e1, e2, Real.sin_add, Real.sin_sub] at h1
    rw [e1, e2, Real.cos_add, Real.cos_sub] at h3
    have hc0 : Real.cos t * Real.sin 0.3 = 0 := by linarith
    have hs0 : Real.sin t * Real.sin 0.3 = 0 := by linarith
    have hc : Real.cos t = 0 := by
      rcases mul_eq_zero.mp hc0 with h | h
      · exact h
      · linarith
    have hs : Real.sin t = 0 := by
      rcases mul_eq_zero.mp hs0 with h | h
      · exact h
      · linarith
    rw [hc, hs] at hsc
    norm_num at hsc

end GK1
